import Mathlib

/-!
Shallow embedding of `epuck/comm/async.py` (asynchronous command/response
manager for the E-Puck robot) and proofs about it.

Conventions of the embedding:
* Python byte strings are `List Nat` (each element one byte value `ord c`).
* The response code (a one-character string in the source) and the
  correlation timestamp are represented by their numeric values (`Nat`).
* `Queue.PriorityQueue` contents (`response_queue`, tuples
  `(time of insertion, request)`) are modelled as a `List (Nat × RequestHandler)`
  held in ascending insertion-time order; popping via `get()` is taking the
  head of the list.
* A call that blocks forever (e.g. `Queue.get()` on an empty queue) is
  modelled by `Option.none`; a raised exception by `Except.error`.
-/

/-- Embeds `class RequestHandler` (async.py lines 23-69).  The mutable
attribute `self.response` (initially `None`) is the `response` field;
`waiters` counts the threads currently blocked inside
`self.accomplished.wait()` (the `threading.Condition`). -/
structure RequestHandler where
  command : List Nat
  response_code : Nat
  timestamp : Nat
  response : Option (List Nat)
  waiters : Nat
deriving DecidableEq

/-- Embeds `RequestHandler.__init__(self, command, response_code, timestamp)`:
stores the three arguments and sets `self.response = None` (no thread is
waiting yet). -/
def RequestHandler.init (command : List Nat) (response_code timestamp : Nat) :
    RequestHandler :=
  { command := command, response_code := response_code, timestamp := timestamp,
    response := none, waiters := 0 }

/-- Embeds `RequestHandler.get_command`: `return self.command`. -/
def RequestHandler.get_command (h : RequestHandler) : List Nat :=
  h.command

/-- Embeds `RequestHandler.own_response(self, code, timestamp)`:
`return code == self.response_code and self.timestamp == timestamp`. -/
def RequestHandler.own_response (h : RequestHandler) (code timestamp : Nat) :
    Bool :=
  code == h.response_code && h.timestamp == timestamp

/-- Embeds `RequestHandler.set_response(self, response)`: assigns
`self.response = response`, then `acquire`; `notify`; `release` on the
condition.  `threading.Condition.notify()` wakes AT MOST ONE waiting thread
(not all of them), which on `Nat` is exactly truncated subtraction of 1 from
the waiter count.  The argument keeps Python's ability to pass `None`
(`Option`). -/
def RequestHandler.set_response (h : RequestHandler) (response : Option (List Nat)) :
    RequestHandler :=
  { h with response := response, waiters := h.waiters - 1 }

/-- Embeds `RequestHandler.get_response`: `return self.response`. -/
def RequestHandler.get_response (h : RequestHandler) : Option (List Nat) :=
  h.response

/-- Embeds `RequestHandler.response_received`:
`return self.response is not None`. -/
def RequestHandler.response_received (h : RequestHandler) : Bool :=
  h.response.isSome

/-- Embeds `AsyncComm._get_request(self, code, timestamp)` (async.py lines
228-240).  The argument list is the contents of `self.response_queue`
(a `PriorityQueue`, ascending by insertion time; `get()` pops the head).
Returned are, in order: the non-matching requests moved to
`self.request_queue` by `self._enqueue_request` (side effects that happen
even when the scan ultimately fails), and either the matching request
together with the remaining queue contents, or the raised
`AsyncCommError("No request found for received response.")`. -/
def get_request (code timestamp : Nat) :
    List (Nat × RequestHandler) →
      List RequestHandler × Except String (RequestHandler × List (Nat × RequestHandler))
  | [] => ([], .error "No request found for received response.")
  | (_, r) :: rest =>
      if r.own_response code timestamp then
        ([], .ok (r, rest))
      else
        let p := get_request code timestamp rest
        (r :: p.1, p.2)

/-- Embeds `AsyncComm._save_response(self, code, timestamp, response)`
(async.py lines 223-226): `request = self._get_request(code, timestamp);
request.set_response(response)`.  An exception from `_get_request`
propagates. -/
def save_response (code timestamp : Nat) (response : List Nat)
    (queue : List (Nat × RequestHandler)) :
    List RequestHandler × Except String (RequestHandler × List (Nat × RequestHandler)) :=
  let p := get_request code timestamp queue
  (p.1, p.2.map fun q => (q.1.set_response (some response), q.2))

/-- C7: given a decoded `(code, timestamp)`, the correlation step pops entries
from the Response Wait Set oldest-first (the list is held in ascending
send-timestamp order and popped from the head); each popped entry is tested
with the exact-match predicate `own_response code timestamp`; on the first
match the payload is delivered to that handler (`set_response`) and the scan
stops, leaving the younger entries in place; every non-matching popped entry
is re-inserted into the Request Queue for retransmission; if the set is
exhausted with no match, a correlation failure
(`AsyncCommError("No request found for received response.")`) is signalled. -/
theorem correlation_scan_oldest_first (code timestamp : Nat) (payload : List Nat)
    (l : List (Nat × RequestHandler)) :
    get_request code timestamp l =
      ((l.takeWhile fun e => !(e.2.own_response code timestamp)).map Prod.snd,
        match l.dropWhile (fun e => !(e.2.own_response code timestamp)) with
        | [] => .error "No request found for received response."
        | e :: rest => .ok (e.2, rest))
    ∧ save_response code timestamp payload l =
      ((l.takeWhile fun e => !(e.2.own_response code timestamp)).map Prod.snd,
        match l.dropWhile (fun e => !(e.2.own_response code timestamp)) with
        | [] => .error "No request found for received response."
        | e :: rest => .ok (e.2.set_response (some payload), rest)) := by
  have hg : get_request code timestamp l =
      ((l.takeWhile fun e => !(e.2.own_response code timestamp)).map Prod.snd,
        match l.dropWhile (fun e => !(e.2.own_response code timestamp)) with
        | [] => .error "No request found for received response."
        | e :: rest => .ok (e.2, rest)) := by
    induction l with
    | nil => simp [get_request]
    | cons hd tl ih =>
        by_cases hm : hd.2.own_response code timestamp
        · simp [get_request, List.takeWhile_cons, List.dropWhile_cons, hm]
        · simp only [get_request, List.takeWhile_cons, List.dropWhile_cons, hm,
            Bool.not_false, if_false, if_true, ih]
          simp [hm]
  refine ⟨hg, ?_⟩
  rw [save_response, hg]
  cases hD : l.dropWhile (fun e => !(e.2.own_response code timestamp)) with
  | nil => simp [Except.map]
  | cons e rest => simp [Except.map]

/-- C10: for every `RequestHandler`, the absence of a response is represented
by the `None` sentinel at the public interface: `get_response()` returns
`None` (it totally returns the stored slot, never raising) before
fulfillment, and `response_received()` is true exactly when the stored
response is not `None` — so fulfilling a handler with a `None` payload
(`set_response(None)`) leaves `get_response()` and `response_received()`
exactly as they were before any response arrived. -/
theorem none_sentinel_interface (command : List Nat) (code timestamp : Nat)
    (h : RequestHandler) :
    (RequestHandler.init command code timestamp).get_response = none
    ∧ (RequestHandler.init command code timestamp).response_received = false
    ∧ h.response_received = h.get_response.isSome
    ∧ (h.set_response none).get_response
        = (RequestHandler.init command code timestamp).get_response
    ∧ (h.set_response none).response_received
        = (RequestHandler.init command code timestamp).response_received := by
  refine ⟨rfl, rfl, rfl, rfl, rfl⟩

/-- C5 (code bug): `set_response` calls `self.accomplished.notify()`, and
`threading.Condition.notify()` wakes AT MOST ONE waiting thread — even
though the method's own docstring says "notify all waiting for the
request".  With two threads blocked in `join()` on the same handler
(`waiters = 2`), one call to `set_response` leaves one of them still
blocked (`waiters = 1`, not `0` as the claim requires). -/
theorem set_response_wakes_single_waiter :
    ((RequestHandler.mk [] 49 10 none 2).set_response (some [79])).waiters = 1
    ∧ ((RequestHandler.mk [] 49 10 none 2).set_response (some [79])).waiters ≠ 0 := by
  refine ⟨rfl, by decide⟩

/-!
Trace model for `join()` / `set_response()` interleavings.

`RequestHandler.join` (async.py lines 67-69) is a bare
`self.accomplished.wait()` with NO predicate re-check (and without even
acquiring the condition's lock first, which makes CPython raise
`RuntimeError("cannot wait on un-acquired lock")`; the model below is the
charitable reading that ignores the missing `acquire`).  A
`threading.Condition` does not queue notifications: `notify()` wakes a
thread currently waiting and is lost if nobody waits.  The model tracks a
single caller thread:
* `response` — the handler's response slot;
* `waiting`  — the caller is blocked inside `accomplished.wait()`;
* `joined`   — the caller's `join()` call has returned.
-/

/-- One caller thread interacting with one `RequestHandler`. -/
structure JoinState where
  response : Option (List Nat)
  waiting : Bool
  joined : Bool
deriving DecidableEq

/-- Events of the trace model: the loop thread fulfilling the handler, the
caller invoking `join()`, and a wake-up of the waiting caller that does not
come from `set_response` (a spurious wake-up of the condition variable). -/
inductive JoinEvent where
  | set_response (payload : List Nat)
  | joinStart
  | spuriousWake
deriving DecidableEq

/-- Semantics of one event.  `set_response` stores the payload and performs
`notify()`: if the caller is waiting it is woken, and — because `join()`
re-checks nothing after `wait()` returns — its `join()` immediately
returns; if nobody is waiting the notification is lost.  `joinStart` enters
`accomplished.wait()` unconditionally: the source tests no predicate before
(or after) waiting.  `spuriousWake` wakes a waiting caller, whose `join()`
then returns regardless of the response slot. -/
def joinStep (s : JoinState) : JoinEvent → JoinState
  | .set_response p =>
      { response := some p, waiting := false, joined := s.joined || s.waiting }
  | .joinStart => { s with waiting := true }
  | .spuriousWake =>
      if s.waiting then { s with waiting := false, joined := true } else s

/-- Runs a trace from the freshly-constructed handler state (no response, no
waiter, `join()` not yet returned). -/
def joinRun (events : List JoinEvent) : JoinState :=
  events.foldl joinStep { response := none, waiting := false, joined := false }

/-- C1 (code bug): `join()` is a bare `self.accomplished.wait()` that never
re-checks the response-present predicate.  First trace: the response is
delivered BEFORE `join()` is called, so the `notify()` is lost and the
caller blocks inside `wait()` forever (`waiting = true`, `joined = false`)
even though `response` is present — refuting "a response delivered before
`join()` is called never leaves the caller blocked".  Second trace: a
spurious wake-up makes `join()` return (`joined = true`) while `response`
is still `none` — refuting "a spurious wake-up never makes `join()` return
without a response". -/
theorem join_bare_wait_bug :
    joinRun [.set_response [79], .joinStart]
      = { response := some [79], waiting := true, joined := false }
    ∧ joinRun [.joinStart, .spuriousWake]
      = { response := none, waiting := false, joined := true } := by
  refine ⟨rfl, rfl⟩

/-- Embeds `AsyncComm._check_requests_timeout` (async.py lines 242-256),
run when `select` reaches its deadline with no readiness.  `now` is
`time.time()` and the list is `self.response_queue` in ascending insertion
order.  The loop body is `sent_time, request = self.response_queue.get()`:
`Queue.get()` on an EMPTY queue blocks forever (the loop thread is the only
producer of `response_queue`, so nothing can unblock it) — modelled as
`none`.  Otherwise, an entry whose age strictly exceeds `timeout` is moved
to the request queue (`_enqueue_request`) and the scan continues; the first
entry within the window is put back and the scan stops, returning the
requeued requests and the remaining queue. -/
def check_requests_timeout (now timeout : Nat) :
    List (Nat × RequestHandler) →
      Option (List RequestHandler × List (Nat × RequestHandler))
  | [] => none
  | (sent_time, request) :: rest =>
      if now - sent_time > timeout then
        (check_requests_timeout now timeout rest).map fun p =>
          (request :: p.1, p.2)
      else
        some ([], (sent_time, request) :: rest)

/-- C4 (code bug): the timeout scan does NOT terminate for every state of
the Response Wait Set.  With an empty set, the very first
`self.response_queue.get()` blocks forever, deadlocking the event loop
(first conjunct); with a set whose entries have all exceeded the timeout,
the scan requeues them all and then blocks on the next `get()` from the
now-empty queue (second conjunct).  The third conjunct shows the scan does
behave as claimed when an in-window entry is present: the expired entry is
moved to the Request Queue and the first in-window entry is reinserted
unchanged, stopping the scan. -/
theorem timeout_scan_blocks_on_drained_queue :
    check_requests_timeout 100 1 [] = none
    ∧ check_requests_timeout 100 1 [(0, RequestHandler.init [] 49 10)] = none
    ∧ check_requests_timeout 100 1
        [(0, RequestHandler.init [] 49 10), (99, RequestHandler.init [] 50 11)]
      = some ([RequestHandler.init [] 49 10], [(99, RequestHandler.init [] 50 11)]) := by
  refine ⟨rfl, rfl, by decide⟩

/-- The two `AsyncComm` actions an interrupt marker can select: `'NEW'` runs
`self._write_request` and `'STOP'` runs `self._stop_main_loop`. -/
inductive InterruptAction where
  | write_request
  | stop_main_loop
deriving DecidableEq

/-- Embeds the `command_handlers` dict lookup of `AsyncComm._process_interrupt`
(async.py lines 147-163): `{'NEW': ..., 'STOP': ...}[command]` — any other
key raises `KeyError`, modelled as `none`. -/
def command_handlers : String → Option InterruptAction
  | "NEW" => some .write_request
  | "STOP" => some .stop_main_loop
  | _ => none

/-- Embeds `os.read(self.interrupt_fd_read, 0xff)` on the wake pipe: one read
returns ALL bytes currently pending in the pipe (up to 255), concatenated —
a pipe preserves no message boundaries between writes. -/
def os_read (pending : String) (n : Nat) : String :=
  ⟨pending.data.take n⟩

/-- Embeds `AsyncComm._process_interrupt`: one `os.read` of up to `0xff`
bytes, then the handler-dict lookup on the bytes read, taken as a single
key. -/
def process_interrupt (pending : String) : Option InterruptAction :=
  command_handlers (os_read pending 0xff)

/-- C6 (code bug): wake-channel markers are NOT consumed as discrete units.
When two senders have both written `"NEW"` (or one `"NEW"` and one
`"STOP"`) before the loop wakes, the single `os.read(fd, 0xff)` returns the
concatenation, and the dict lookup raises `KeyError` (`none`), crashing the
loop — refuting "each consumed marker is decoded to exactly one of the two
recognized handlers".  The last two conjuncts show that a marker arriving
alone is decoded as the claim describes. -/
theorem interrupt_markers_coalesce :
    process_interrupt "NEWNEW" = none
    ∧ process_interrupt "NEWSTOP" = none
    ∧ process_interrupt "NEW" = some .write_request
    ∧ process_interrupt "STOP" = some .stop_main_loop := by
  refine ⟨rfl, rfl, rfl, rfl⟩

/-!
Frame decoding.  The transport (`self.serial_connection`) is modelled as a
`List Nat` of pending bytes; `read(n)` yields exactly `n` bytes (blocking —
`none` — if fewer are pending in the model), `readline()` yields bytes up to
and including the first newline (byte 10).
-/

/-- Embeds `serial_connection.readline()`: bytes up to and including the
first newline, plus the rest of the stream.  (A stream with no newline
would block the real call; the concrete inputs used below always contain
one.) -/
def readline : List Nat → List Nat × List Nat
  | [] => ([], [])
  | b :: rest =>
      if b == 10 then ([10], rest)
      else
        let p := readline rest
        (b :: p.1, p.2)

/-- Embeds Python's `s.split(',', 1)` on a byte string: the bytes before the
first comma (byte 44), and — when a comma is present — the remaining bytes
after it.  `none` in the second component is the no-comma case, where the
source's later `response[1]` would raise `IndexError`. -/
def splitFirstComma : List Nat → List Nat × Option (List Nat)
  | [] => ([], none)
  | b :: rest =>
      if b == 44 then ([], some rest)
      else
        let p := splitFirstComma rest
        (b :: p.1, p.2)

/-- Embeds Python's `int()` applied to the decimal-digit byte string the
device sends as a text-frame timestamp (bytes `'0'`-`'9'`, values 48-57);
any other input makes `int()` raise `ValueError` (`none`).  (Python's
`int()` also accepts signs and surrounding whitespace; the device protocol
never sends those, so they are not modelled.) -/
def parseDecimal (s : List Nat) : Option Nat :=
  if s ≠ [] ∧ ∀ b ∈ s, 48 ≤ b ∧ b ≤ 57 then
    some (s.foldl (fun acc b => acc * 10 + (b - 48)) 0)
  else none

/-- Embeds `AsyncComm._read_binary_data` (async.py lines 202-212):
`lo, hi = self.serial_connection.read(2)`; `size = hi << 8 + lo`;
`data = self.serial_connection.read(size)`.  Python parses `hi << 8 + lo`
as `hi << (8 + lo)` (`+` binds tighter than `<<`), and the embedding keeps
that expression exactly.  (In Python 2 the unpacking even yields
one-character strings, so the shift raises `TypeError`; the embedding is
the charitable reading on byte values.)  Returns the payload read and the
rest of the stream. -/
def read_binary_data : List Nat → Option (List Nat × List Nat)
  | lo :: hi :: rest =>
      let size := hi <<< (8 + lo)
      if size ≤ rest.length then some (rest.take size, rest.drop size)
      else none
  | _ => none

/-- Embeds `AsyncComm._read_text_data` (async.py lines 214-221):
`data = self.serial_connection.readline()`. -/
def read_text_data (s : List Nat) : List Nat × List Nat :=
  readline s

/-- Result of reading one frame: the decoded response code, correlation
timestamp and payload, plus the bytes left in the stream. -/
structure Frame where
  code : Nat
  timestamp : Nat
  payload : List Nat
deriving DecidableEq

/-- Embeds `AsyncComm._read_response` (async.py lines 184-200): read one
code byte; if `ord(code) >= 127`, read one echoed timestamp byte then
`_read_binary_data`; otherwise `_read_text_data().split(',', 1)`, the first
part through `int()` as the timestamp, the second part as the payload.
`none` covers the paths where the source raises (`IndexError` on a text
line with no comma, `ValueError` on a non-decimal timestamp) or blocks on a
truncated stream. -/
def read_response (s : List Nat) : Option (Frame × List Nat) :=
  match s with
  | [] => none
  | code :: rest =>
      if code ≥ 127 then
        match rest with
        | timestamp :: rest2 =>
            (read_binary_data rest2).map fun p =>
              ({ code := code, timestamp := timestamp, payload := p.1 }, p.2)
        | [] => none
      else
        let line := read_text_data rest
        match splitFirstComma line.1 with
        | (tsBytes, some payload) =>
            (parseDecimal tsBytes).map fun ts =>
              ({ code := code, timestamp := ts, payload := payload }, line.2)
        | (_, none) => none

/-- C2 (code bug): for the binary frame with code byte 200, echoed timestamp
7, length bytes `(lo, hi) = (3, 0)` (the 16-bit unsigned encoding of 3 with
the low byte first, as the source's `lo, hi` unpacking order indicates) and
payload `b"xyz"` (bytes 120, 121, 122), the computed size is
`hi << (8 + lo) = 0 << 11 = 0` — Python parses the source's
`size = hi << 8 + lo` as `hi << (8 + lo)` — so ZERO payload bytes are read:
the delivered payload is empty, the three `"xyz"` bytes are left unread in
the stream, and a handler owning `(200, 7)` ends with
`get_response() == ""` rather than `b"xyz"`. -/
theorem read_binary_length_bug :
    read_response [200, 7, 3, 0, 120, 121, 122]
      = some ({ code := 200, timestamp := 7, payload := [] }, [120, 121, 122])
    ∧ (save_response 200 7 [] [(0, RequestHandler.init [] 200 7)]).2
      = .ok ((RequestHandler.init [] 200 7).set_response (some []), [])
    ∧ ((RequestHandler.init [] 200 7).set_response (some [])).get_response
      ≠ some [120, 121, 122] := by
  refine ⟨by decide, rfl, by decide⟩

/-- The state the event loop mutates while processing inbound frames:
`response_queue` (the Response Wait Set, ascending by send time),
`request_queue` (requests awaiting (re)transmission), and the handlers
fulfilled so far, in delivery order. -/
structure LoopState where
  response_queue : List (Nat × RequestHandler)
  request_queue : List RequestHandler
  delivered : List RequestHandler
deriving DecidableEq

/-- Embeds one transport-readable iteration of `AsyncComm.run` (async.py
lines 116-141): `self._read_response()`, which decodes the frame and calls
`self._save_response(code, timestamp, response)`.  `run` wraps none of this
in `try`/`except`, so a raised `AsyncCommError` propagates out of the
`while` loop and terminates the thread: the error carries the state left
behind (the wait set fully drained by the failed scan, the non-matching
entries already requeued).  A `none` from `read_response` (a path where the
source raises `IndexError`/`ValueError` or blocks) is likewise fatal. -/
def read_iteration (frame : List Nat) (s : LoopState) :
    Except (String × LoopState) LoopState :=
  match read_response frame with
  | none => .error ("unhandled read failure", s)
  | some (f, _) =>
      let p := save_response f.code f.timestamp f.payload s.response_queue
      match p.2 with
      | .error e =>
          .error (e, { s with response_queue := [],
                              request_queue := s.request_queue ++ p.1 })
      | .ok q =>
          .ok { response_queue := q.2,
                request_queue := s.request_queue ++ p.1,
                delivered := s.delivered ++ [q.1] }

/-- The `while self.running` loop of `AsyncComm.run`, restricted to the
transport-readable iterations: each pending frame is processed in turn; an
uncaught exception ends the loop at once, leaving the remaining frames
unprocessed. -/
def runLoop : List (List Nat) → LoopState → Except (String × LoopState) LoopState
  | [], s => .ok s
  | f :: fs, s =>
      match read_iteration f s with
      | .ok s2 => runLoop fs s2
      | .error e => .error e

/-- A text frame `'1'` + `"10,OK\n"`: it matches no in-flight request in the
states used below, whose only handler expects timestamp 99. -/
def c3_bad_frame : List Nat := [49, 49, 48, 44, 79, 75, 10]

/-- A text frame `'1'` + `"99,OK\n"`, which WOULD match the pending handler
— but arrives after the correlation failure has killed the loop. -/
def c3_good_frame : List Nat := [49, 57, 57, 44, 79, 75, 10]

/-- Loop state with a single in-flight request expecting `('1', 99)`. -/
def c3_state : LoopState :=
  { response_queue := [(0, RequestHandler.init [] 49 99)],
    request_queue := [], delivered := [] }

/-- The state at the moment the uncaught `AsyncCommError` propagates: the
wait set drained, the popped non-matching handler requeued, nothing
delivered. -/
def c3_error_state : LoopState :=
  { response_queue := [], request_queue := [RequestHandler.init [] 49 99],
    delivered := [] }

/-- C3 (counterexample): an inbound frame matching no entry in the Response
Wait Set does NOT leave the loop running.  `_get_request` raises
`AsyncCommError("No request found for received response.")`, `run` has no
handler for it, and the thread dies: processing the non-matching frame
followed by a frame that would match ends with the error after the first
iteration — the second frame is never read and nothing is ever delivered,
refuting "the loop is not crashed, and the loop continues running and
processing later iterations". -/
theorem correlation_miss_crashes_loop :
    runLoop [c3_bad_frame, c3_good_frame] c3_state
      = .error ("No request found for received response.", c3_error_state)
    ∧ ((runLoop [c3_bad_frame, c3_good_frame] c3_state).toOption.map
        LoopState.delivered) = none := by
  refine ⟨rfl, rfl⟩

/-- C3 (amended): when an inbound frame's `(code, timestamp)` matches no
entry in the Response Wait Set, the scan drains the set, requeues every
popped entry, and signals the failure by raising
`AsyncCommError("No request found for received response.")`; the exception
propagates out of `run()` uncaught, so the event loop terminates
immediately and processes no later iterations. -/
theorem correlation_miss_error_propagates
    (code timestamp : Nat) (payload : List Nat)
    (l : List (Nat × RequestHandler))
    (f : List Nat) (fs : List (List Nat)) (s : LoopState)
    (e : String × LoopState)
    (hl : ∀ x ∈ l, x.2.own_response code timestamp = false)
    (hf : read_iteration f s = .error e) :
    save_response code timestamp payload l
      = (l.map Prod.snd, .error "No request found for received response.")
    ∧ runLoop (f :: fs) s = .error e := by
  have hg : ∀ (l2 : List (Nat × RequestHandler)),
      (∀ x ∈ l2, x.2.own_response code timestamp = false) →
      get_request code timestamp l2
        = (l2.map Prod.snd, .error "No request found for received response.") := by
    intro l2
    induction l2 with
    | nil => intro _; rfl
    | cons hd tl ih =>
        intro hl2
        have h1 : hd.2.own_response code timestamp = false :=
          hl2 hd (List.mem_cons_self _ _)
        have h2 := ih fun x hx => hl2 x (List.mem_cons_of_mem _ hx)
        simp [get_request, h1, h2]
  constructor
  · simp [save_response, hg l hl, Except.map]
  · simp [runLoop, hf]

/-- C3 (witness for the amended theorem): the general statement applied to
the concrete states above. -/
theorem correlation_miss_error_propagates_witness :
    save_response 49 10 [79, 75, 10] [(0, RequestHandler.init [] 49 99)]
      = ([(0, RequestHandler.init [] 49 99)].map Prod.snd,
          .error "No request found for received response.")
    ∧ runLoop (c3_bad_frame :: [c3_good_frame]) c3_state
      = .error ("No request found for received response.", c3_error_state) :=
  correlation_miss_error_propagates 49 10 [79, 75, 10]
    [(0, RequestHandler.init [] 49 99)] c3_bad_frame [c3_good_frame] c3_state
    ("No request found for received response.", c3_error_state)
    (by decide) rfl

/-- The C9 scenario frame: code byte `'1'` (49, unsigned value < 127)
followed by the newline-terminated line `"10,OK\n"`
(bytes 49 48 44 79 75 10). -/
def c9_frame : List Nat := [49, 49, 48, 44, 79, 75, 10]

/-- The C9 scenario state: one in-flight command submitted with
`timestamp=10`, `response_code='1'` (49), its caller blocked in `join()`
(one waiter on the condition). -/
def c9_state : LoopState :=
  { response_queue := [(0, { RequestHandler.init [] 49 10 with waiters := 1 })],
    request_queue := [], delivered := [] }

/-- C9 (counterexample): in the scenario — command submitted with
`timestamp=10`, `response_code='1'`, transport yielding the code byte and
then the text line `"10,OK\n"` — the delivered response is NOT `"OK"`
(bytes 79 75): no run of the loop on that frame delivers `"OK"`, because
`readline()` keeps the terminating newline and `split(',', 1)` removes only
the comma, so the stored payload is `"OK\n"`. -/
theorem text_scenario_ok_counterexample :
    ((runLoop [c9_frame] c9_state).toOption.map
        fun s2 => s2.delivered.map RequestHandler.get_response)
      ≠ some [some [79, 75]] := by
  decide

/-- C9 (amended): after submitting a command with `timestamp=10` and
`response_code='1'`, when the transport yields the text frame — code byte
`'1'` (unsigned value < 127, so the loop reads one newline-terminated line
and splits it once on the first comma into a decimal timestamp and the
remaining payload) followed by the line `"10,OK\n"` — the frame is
correlated to the handler, `join()` returns (the blocked waiter is
notified: `waiters` drops from 1 to 0) and `get_response() == "OK\n"`
(bytes 79 75 10): the payload keeps the line's terminating newline. -/
theorem text_scenario_payload_keeps_newline :
    runLoop [c9_frame] c9_state
      = .ok { response_queue := [], request_queue := [],
              delivered := [{ command := [], response_code := 49, timestamp := 10,
                              response := some [79, 75, 10], waiters := 0 }] } := by
  rfl

/-!
FIFO transmission.  `send_command` builds a `RequestHandler` and calls
`_enqueue_request`, which appends to `self.request_queue` (a FIFO
`Queue.Queue`) and writes `'NEW'`; a timeout or correlation-mismatch
requeue goes through the very same `_enqueue_request`.  On a `'NEW'`
marker, `_write_request` pops the head of the queue and writes its command
bytes to the transport.  The events below are those three operations; the
queue holds the commands of the pending handlers.
-/

/-- Events of the transmission model: a caller's `send_command` submission,
an explicit retry requeue (`_enqueue_request` from `_get_request` or
`_check_requests_timeout`), and one `_write_request` dispatch. -/
inductive QEvent where
  | submit (c : List Nat)
  | requeue (c : List Nat)
  | transmit
deriving DecidableEq

/-- The FIFO `request_queue` and the sequence of command byte strings
written to the transport, oldest first. -/
structure QState where
  request_queue : List (List Nat)
  transmitted : List (List Nat)
deriving DecidableEq

/-- One event.  `submit`/`requeue` append to the FIFO queue
(`Queue.put`); `transmit` is `_write_request`: `request_queue.get()` pops
the head and `serial_connection.write` appends its bytes to the transport
log.  (A `transmit` against an empty queue would block in `Queue.get()`;
no bytes are written, modelled as leaving the state unchanged.) -/
def qstep (s : QState) : QEvent → QState
  | .submit c => { s with request_queue := s.request_queue ++ [c] }
  | .requeue c => { s with request_queue := s.request_queue ++ [c] }
  | .transmit =>
      match s.request_queue with
      | [] => s
      | c :: rest => { request_queue := rest, transmitted := s.transmitted ++ [c] }

/-- Runs an event sequence from the empty initial state. -/
def qrun (es : List QEvent) : QState :=
  es.foldl qstep { request_queue := [], transmitted := [] }

/-- The commands handed to `_enqueue_request` during an event sequence, in
order: submissions and explicit retries interleaved. -/
def enqueued : List QEvent → List (List Nat)
  | [] => []
  | .submit c :: es => c :: enqueued es
  | .requeue c :: es => c :: enqueued es
  | .transmit :: es => enqueued es

theorem qrun_invariant (es : List QEvent) (s : QState) :
    (es.foldl qstep s).transmitted ++ (es.foldl qstep s).request_queue
      = s.transmitted ++ s.request_queue ++ enqueued es := by
  induction es generalizing s with
  | nil => simp [enqueued]
  | cons e es ih =>
      cases e with
      | submit c => simp [qstep, enqueued, ih]
      | requeue c => simp [qstep, enqueued, ih]
      | transmit =>
          cases hq : s.request_queue with
          | nil => simp [qstep, hq, enqueued, ih, hq]
          | cons c rest =>
              simp only [List.foldl_cons, qstep, hq, enqueued, ih]
              simp [hq]

/-- C8: for every sequence of `send_command` calls (interleaved with
explicit retry requeues and `_write_request` dispatches), the command byte
sequences written to the transport are exactly an initial segment of the
enqueue order — the FIFO submission order, with retries interleaved at
their requeue points.  Hence there is no reordering, and each transmission
consumes exactly one enqueued entry, so no command is duplicated except
through an explicit retry (timeout or correlation-mismatch requeue). -/
theorem transmit_fifo_order (es : List QEvent) :
    (qrun es).transmitted ++ (qrun es).request_queue = enqueued es := by
  have h := qrun_invariant es { request_queue := [], transmitted := [] }
  simpa [qrun] using h
